import Mathlib

/-!
# QuranViewer (src/script.js): a shallow embedding

The class `QuranViewer` keeps three fields (`currentPage`, `totalPages`,
`loading`) and a handful of DOM references.  Its methods are embedded as pure
functions on a record `Viewer` holding the fields, the DOM properties the
methods read or write, a log of the observable effects (`alert` calls, started
fetches), and the list of `loadPage` activations suspended at an `await`.

An `async` method is split at its suspension points: the synchronous prefix is
one function, and each settlement of the awaited promise is another function
that runs the continuation to its next suspension point or to its end.
JavaScript integers are `Int`; all numbers the program handles are far below
2^53.
-/

namespace QuranViewer

/-! ## Data model -/

/-- Content of `#svg-container` (`container.innerHTML`). -/
inductive Viewport where
  /-- the markup the document was served with -/
  | initial
  /-- line 154: the fetched text; `fitted` records that lines 158-163 restyled an `svg` child -/
  | svg (svgText : String) (fitted : Bool)
  /-- lines 166-168: the inline error message for a page -/
  | errorPlaceholder (pageNumber : Int)
  deriving DecidableEq, Repr

/-- The two `alert` calls of the program. -/
inductive Alert where
  /-- line 137 -/
  | loadError
  /-- line 189, carrying the interpolated `totalPages` -/
  | range (totalPages : Int)
  deriving DecidableEq, Repr

/-- A `loadPage` activation suspended inside `loadSvgPage`. -/
inductive Suspended where
  /-- at `await fetch(svgPath)`, line 148 -/
  | awaitingFetch (pageNumber : Int)
  /-- at `await response.text()`, line 153 -/
  | awaitingText (pageNumber : Int)
  deriving DecidableEq, Repr

/-- How `fetch(svgPath)` settles. -/
inductive FetchResult where
  /-- the promise rejects (transport error) -/
  | rejected
  /-- the promise resolves with a response whose `ok` flag is given -/
  | response (ok : Bool)
  deriving DecidableEq, Repr

/-- How `response.text()` settles. -/
inductive TextResult where
  /-- the promise rejects (the body could not be read) -/
  | rejected
  /-- the promise resolves with the body; `hasSvg` is whether
  `container.querySelector('svg')` finds an element once the body is injected -/
  | text (svgText : String) (hasSvg : Bool)
  deriving DecidableEq, Repr

/-- Exceptions raised by the embedded code. -/
inductive JsError where
  /-- an identifier that no enclosing scope binds was read -/
  | referenceError (identifier : String)
  /-- the statement `throw new Error(...)`, line 150, or a rejected promise -/
  | error (message : String)
  deriving DecidableEq, Repr

/-- The viewer: fields of the `QuranViewer` instance, the DOM properties its
methods touch, and the observable effects so far. -/
structure Viewer where
  /-- Field `this.currentPage`. -/
  currentPage : Int
  /-- Field `this.totalPages`. -/
  totalPages : Int
  /-- Field `this.loading`. -/
  loading : Bool
  /-- Property `this.svgContainer.innerHTML`. -/
  svgContainer : Viewport
  /-- Property `this.currentPageSpan.textContent`. -/
  currentPageSpan : String
  /-- Property `this.totalPagesSpan.textContent`. -/
  totalPagesSpan : String
  /-- Property `this.pageInput.value`. -/
  pageInput : String
  /-- Property `this.prevBtn.disabled`. -/
  prevBtnDisabled : Bool
  /-- Property `this.nextBtn.disabled`. -/
  nextBtnDisabled : Bool
  /-- whether `this.loadingIndicator.classList` contains `hidden` -/
  loadingHidden : Bool
  /-- whether `this.pageInputOverlay.classList` contains `show` -/
  overlayShown : Bool
  /-- every `alert` raised so far, oldest first -/
  alerts : List Alert
  /-- the path of every `fetch` started so far, oldest first -/
  fetched : List String
  /-- the `loadPage` activations that are suspended at an `await` -/
  pending : List Suspended
  /-- the variable `touchStartX` declared at line 86, local to `setupEventListeners` -/
  localTouchStartX : Int
  /-- the variable `touchEndX` declared at line 87, local to `setupEventListeners` -/
  localTouchEndX : Int
  deriving DecidableEq, Repr

/-- The DOM properties of the document as served, before the script runs. -/
structure Document where
  svgContainer : Viewport
  currentPageSpan : String
  totalPagesSpan : String
  pageInput : String
  prevBtnDisabled : Bool
  nextBtnDisabled : Bool
  loadingHidden : Bool
  overlayShown : Bool
  deriving DecidableEq, Repr

/-! ## JavaScript built-ins used by the methods -/

/-- The string `String(n)` for an integer `n` (decimal, with a leading `-` when negative). -/
def numberToString (n : Int) : String := toString n

/-- The string `s.padStart(targetLength, fill)` for a one-character `fill`. -/
def padStart (s : String) (targetLength : Nat) (fill : Char) : String :=
  String.mk (List.replicate (targetLength - s.length) fill ++ s.data)

/-- White space skipped by `parseInt` (ECMAScript `WhiteSpace` and `LineTerminator`). -/
def isJsWhiteSpace (c : Char) : Bool :=
  let n := c.toNat
  n = 0x09 || n = 0x0A || n = 0x0B || n = 0x0C || n = 0x0D || n = 0x20 || n = 0xA0 ||
  n = 0x1680 || (0x2000 ≤ n && n ≤ 0x200A) || n = 0x2028 || n = 0x2029 || n = 0x202F ||
  n = 0x205F || n = 0x3000 || n = 0xFEFF

/-- Value of a character as a digit in the given radix, if it is one. -/
def digitValue (radix : Nat) (c : Char) : Option Nat :=
  let n := c.toNat
  let v : Option Nat :=
    if 48 ≤ n ∧ n ≤ 57 then some (n - 48)
    else if 97 ≤ n ∧ n ≤ 122 then some (n - 97 + 10)
    else if 65 ≤ n ∧ n ≤ 90 then some (n - 65 + 10)
    else none
  match v with
  | some d => if d < radix then some d else none
  | none => none

/-- Longest prefix of radix digits, as digit values. -/
def leadingDigits (radix : Nat) : List Char → List Nat
  | [] => []
  | c :: cs =>
    match digitValue radix c with
    | some d => d :: leadingDigits radix cs
    | none => []

/-- The number `parseInt(s)` with no radix argument; `none` is `NaN`.  Leading white
space is dropped, then an optional sign, then an optional `0x`/`0X` selecting
radix 16, then the longest run of digits is read. -/
def parseInt (s : String) : Option Int :=
  let cs := s.data.dropWhile isJsWhiteSpace
  let (negative, cs) :=
    match cs with
    | '-' :: rest => (true, rest)
    | '+' :: rest => (false, rest)
    | _ => (false, cs)
  let (radix, cs) :=
    match cs with
    | '0' :: 'x' :: rest => (16, rest)
    | '0' :: 'X' :: rest => (16, rest)
    | _ => (10, cs)
  match leadingDigits radix cs with
  | [] => none
  | ds =>
    let magnitude : Nat := ds.foldl (fun acc d => acc * radix + d) 0
    some (if negative then - (magnitude : Int) else (magnitude : Int))

/-! ## Methods of `QuranViewer` -/

/-- Lines 2-5 of the constructor, on the document as served. -/
def construct (d : Document) : Viewer :=
  { currentPage := 1
    totalPages := 604
    loading := false
    svgContainer := d.svgContainer
    currentPageSpan := d.currentPageSpan
    totalPagesSpan := d.totalPagesSpan
    pageInput := d.pageInput
    prevBtnDisabled := d.prevBtnDisabled
    nextBtnDisabled := d.nextBtnDisabled
    loadingHidden := d.loadingHidden
    overlayShown := d.overlayShown
    alerts := []
    fetched := []
    pending := []
    localTouchStartX := 0
    localTouchEndX := 0 }

/-- Method `setupElements`, line 30 (the lookups of lines 17-28 bind the DOM fields). -/
def setupElements (s : Viewer) : Viewer :=
  { s with totalPagesSpan := numberToString s.totalPages }

/-- Method `showLoading`, lines 216-218. -/
def showLoading (s : Viewer) : Viewer := { s with loadingHidden := false }

/-- Method `hideLoading`, lines 220-222. -/
def hideLoading (s : Viewer) : Viewer := { s with loadingHidden := true }

/-- Method `updateUI`, lines 207-214. -/
def updateUI (s : Viewer) : Viewer :=
  { s with
    currentPageSpan := numberToString s.currentPage
    pageInput := numberToString s.currentPage
    prevBtnDisabled := decide (s.currentPage ≤ 1)
    nextBtnDisabled := decide (s.currentPage ≥ s.totalPages) }

/-- Method `showPageInput`, lines 194-201 (the deferred focus changes nothing modelled). -/
def showPageInput (s : Viewer) : Viewer :=
  { s with pageInput := numberToString s.currentPage, overlayShown := true }

/-- Method `hidePageInput`, lines 203-205. -/
def hidePageInput (s : Viewer) : Viewer := { s with overlayShown := false }

/-- The path computed at lines 144-145 of `loadSvgPage`. -/
def svgPath (pageNumber : Int) : String :=
  let paddedPageNumber := padStart (numberToString pageNumber) 3 '0'
  "svg/" ++ paddedPageNumber ++ ".svg"

/-- Method `loadSvgPage`, lines 143-148, up to its first suspension: the path is
computed and the fetch is started; the activation waits for it to settle. -/
def loadSvgPage (s : Viewer) (pageNumber : Int) : Viewer :=
  { s with
    fetched := s.fetched ++ [svgPath pageNumber]
    pending := s.pending ++ [Suspended.awaitingFetch pageNumber] }

/-- The `catch` block of `loadSvgPage`, lines 164-169: the error is logged, the
placeholder is written, and nothing is thrown again, so `loadSvgPage` completes
normally. -/
def loadSvgPageCatch (s : Viewer) (pageNumber : Int) (_error : JsError) :
    Except JsError Viewer :=
  .ok { s with svgContainer := .errorPlaceholder pageNumber }

/-- Method `loadSvgPage` from the settlement of `fetch` (line 148) on: either the
activation suspends again at `response.text()` (`Sum.inl`), or `loadSvgPage`
completes (`Sum.inr`), normally or by throwing. -/
def loadSvgPageAfterFetch (s : Viewer) (pageNumber : Int) (r : FetchResult) :
    Suspended ⊕ Except JsError Viewer :=
  match r with
  | .rejected => .inr (loadSvgPageCatch s pageNumber (.error "fetch rejected"))
  | .response false =>
    .inr (loadSvgPageCatch s pageNumber
      (.error ("Failed to load page " ++ numberToString pageNumber)))
  | .response true => .inl (.awaitingText pageNumber)

/-- Method `loadSvgPage` from the settlement of `response.text()` (line 153) to its end. -/
def loadSvgPageAfterText (s : Viewer) (pageNumber : Int) (r : TextResult) :
    Except JsError Viewer :=
  match r with
  | .rejected => loadSvgPageCatch s pageNumber (.error "body rejected")
  | .text svgText hasSvg => .ok { s with svgContainer := .svg svgText hasSvg }

/-- Method `loadPage` from the completion of `await this.loadSvgPage(...)` (line 129)
to its end: the rest of the `try` block, or the `catch` block, then `finally`. -/
def loadPageAfterSvg (s : Viewer) (pageNumber : Int) (r : Except JsError Viewer) : Viewer :=
  let s :=
    match r with
    | .ok s =>
      let s := { s with currentPage := pageNumber }
      let s := updateUI s
      hideLoading s
    | .error _ =>
      let s := hideLoading s
      { s with alerts := s.alerts ++ [Alert.loadError] }
  { s with loading := false }

/-- Method `loadPage`, lines 119-129, up to the first suspension: the guard, then
`loading`, the indicator, and the call of `loadSvgPage`. -/
def loadPage (s : Viewer) (pageNumber : Int) : Viewer :=
  if pageNumber < 1 ∨ pageNumber > s.totalPages ∨ s.loading = true then
    s
  else
    let s := { s with loading := true }
    let s := showLoading s
    loadSvgPage s pageNumber

/-- Method `goToPreviousPage`, lines 172-176. -/
def goToPreviousPage (s : Viewer) : Viewer :=
  if s.currentPage > 1 then loadPage s (s.currentPage - 1) else s

/-- Method `goToNextPage`, lines 178-182. -/
def goToNextPage (s : Viewer) : Viewer :=
  if s.currentPage < s.totalPages then loadPage s (s.currentPage + 1) else s

/-- Method `goToPage`, lines 184-192. -/
def goToPage (s : Viewer) : Viewer :=
  match parseInt s.pageInput with
  | some pageNumber =>
    if pageNumber ≥ 1 ∧ pageNumber ≤ s.totalPages then
      loadPage s pageNumber
    else
      { s with
        alerts := s.alerts ++ [Alert.range s.totalPages]
        pageInput := numberToString s.currentPage }
  | none =>
    { s with
      alerts := s.alerts ++ [Alert.range s.totalPages]
      pageInput := numberToString s.currentPage }

/-- The call `requestPageFromInput(raw)` of the specification: the input field
holds `raw` when `goToPage` runs. -/
def requestPageFromInput (s : Viewer) (raw : String) : Viewer :=
  goToPage { s with pageInput := raw }

/-! ### Swipe handling -/

/-- What a scope binds the identifiers `touchStartX` and `touchEndX` to;
`none` when the scope and those enclosing it declare no such identifier. -/
structure TouchScope where
  touchStartX : Option Int
  touchEndX : Option Int
  deriving DecidableEq, Repr

/-- The scope of the body of `handleSwipe` (lines 104-117).  The method declares
only `swipeThreshold` and `diff`; the class body and the top level of the script
declare only `QuranViewer`.  The variables of lines 86-87 are local to the body
of `setupEventListeners` (lines 33-102) and are not visible here. -/
def handleSwipeScope : TouchScope := { touchStartX := none, touchEndX := none }

/-- Method `handleSwipe`, lines 104-117, with its free identifiers resolved in `scope`. -/
def handleSwipe (scope : TouchScope) (s : Viewer) : Except JsError Viewer :=
  let swipeThreshold : Int := 50
  match scope.touchStartX with
  | none => .error (.referenceError "touchStartX")
  | some touchStartX =>
    match scope.touchEndX with
    | none => .error (.referenceError "touchEndX")
    | some touchEndX =>
      let diff := touchStartX - touchEndX
      if |diff| > swipeThreshold then
        if diff > 0 then .ok (goToNextPage s) else .ok (goToPreviousPage s)
      else .ok s

/-- The `touchstart` listener, lines 89-91. -/
def onTouchStart (s : Viewer) (screenX : Int) : Viewer :=
  { s with localTouchStartX := screenX }

/-- The `touchend` listener, lines 93-96: the state it leaves and the exception
that escapes it, if any. -/
def onTouchEnd (s : Viewer) (screenX : Int) : Viewer × Option JsError :=
  let s := { s with localTouchEndX := screenX }
  match handleSwipe handleSwipeScope s with
  | .ok s => (s, none)
  | .error e => (s, some e)

/-- A swipe: a touch starting at `startX` and ending at `endX`. -/
def swipe (s : Viewer) (startX endX : Int) : Viewer × Option JsError :=
  onTouchEnd (onTouchStart s startX) endX

/-! ### Start-up -/

/-- Method `setupEventListeners`, lines 33-102: registers the listeners and
initialises the two local variables of lines 86-87. -/
def setupEventListeners (s : Viewer) : Viewer :=
  { s with localTouchStartX := 0, localTouchEndX := 0 }

/-- Method `init`, lines 10-14. -/
def init (s : Viewer) : Viewer :=
  let s := setupElements s
  let s := setupEventListeners s
  loadPage s s.currentPage

/-- The expression `new QuranViewer()`: the constructor, lines 2-8. -/
def startup (d : Document) : Viewer := init (construct d)

/-! ## Settlement of the awaited promises -/

/-- The promise awaited by the `i`-th suspended activation, a `fetch`, settles
with `r`: `loadSvgPage` resumes at line 148, and when it completes `loadPage`
resumes at line 129.  Nothing happens when the `i`-th activation does not exist
or awaits something else. -/
def settleFetch (s : Viewer) (i : Nat) (r : FetchResult) : Viewer :=
  match s.pending[i]? with
  | some (.awaitingFetch pageNumber) =>
    let resumed := { s with pending := s.pending.eraseIdx i }
    match loadSvgPageAfterFetch resumed pageNumber r with
    | .inl suspended => { s with pending := s.pending.set i suspended }
    | .inr completion => loadPageAfterSvg resumed pageNumber completion
  | _ => s

/-- The promise awaited by the `i`-th suspended activation, a `response.text()`,
settles with `r`: `loadSvgPage` resumes at line 153 and completes, then
`loadPage` resumes at line 129. -/
def settleText (s : Viewer) (i : Nat) (r : TextResult) : Viewer :=
  match s.pending[i]? with
  | some (.awaitingText pageNumber) =>
    let s := { s with pending := s.pending.eraseIdx i }
    loadPageAfterSvg s pageNumber (loadSvgPageAfterText s pageNumber r)
  | _ => s

/-! ## Runs of the viewer -/

/-- What can happen to a running viewer: a call of one of its navigation
methods (from a click, a key or a touch), an edit of the input field, or the
settlement of a promise a suspended `loadPage` awaits. -/
inductive Event where
  | loadPage (pageNumber : Int)
  | goToPreviousPage
  | goToNextPage
  | typeInput (raw : String)
  | goToPage
  | requestPageFromInput (raw : String)
  | showPageInput
  | hidePageInput
  | touchStart (screenX : Int)
  | touchEnd (screenX : Int)
  | fetchSettled (i : Nat) (r : FetchResult)
  | textSettled (i : Nat) (r : TextResult)
  deriving DecidableEq, Repr

/-- One event. -/
def step (s : Viewer) : Event → Viewer
  | .loadPage pageNumber => loadPage s pageNumber
  | .goToPreviousPage => goToPreviousPage s
  | .goToNextPage => goToNextPage s
  | .typeInput raw => { s with pageInput := raw }
  | .goToPage => goToPage s
  | .requestPageFromInput raw => requestPageFromInput s raw
  | .showPageInput => showPageInput s
  | .hidePageInput => hidePageInput s
  | .touchStart screenX => onTouchStart s screenX
  | .touchEnd screenX => (onTouchEnd s screenX).1
  | .fetchSettled i r => settleFetch s i r
  | .textSettled i r => settleText s i r

/-- A sequence of events, in order. -/
def run (s : Viewer) (events : List Event) : Viewer := events.foldl step s

/-- Whether an event is a call made on behalf of the user, as opposed to the
settlement of a promise. -/
def Event.isUser : Event → Bool
  | .fetchSettled _ _ => false
  | .textSettled _ _ => false
  | _ => true

/-- The page a suspended activation is loading. -/
def Suspended.pageNumber : Suspended → Int
  | .awaitingFetch pageNumber => pageNumber
  | .awaitingText pageNumber => pageNumber

/-! ## Definitions that follow the specification -/

/-- The specification of `requestPrevious`: the call `requestPage(currentPage - 1)`. -/
def requestPreviousSpec (s : Viewer) : Viewer := loadPage s (s.currentPage - 1)

/-- The specification of `requestNext`: the call `requestPage(currentPage + 1)`. -/
def requestNextSpec (s : Viewer) : Viewer := loadPage s (s.currentPage + 1)

/-- The number a list of decimal digit characters denotes, most significant first. -/
def decimalValue (digits : List Char) : Nat :=
  digits.foldl (fun acc c => 10 * acc + (c.toNat - 48)) 0

/-! ## Invariants of a run -/

/-- At most one activation is suspended, and `loading` is set exactly when one is. -/
def Serialized (s : Viewer) : Prop :=
  s.pending.length ≤ 1 ∧ (s.loading = true ↔ s.pending.length = 1)

/-- The page count is 604, `currentPage` lies in `[1, 604]`, and so does the page
of every suspended activation. -/
def InRange (s : Viewer) : Prop :=
  s.totalPages = 604 ∧ 1 ≤ s.currentPage ∧ s.currentPage ≤ 604 ∧
    ∀ t ∈ s.pending, 1 ≤ t.pageNumber ∧ t.pageNumber ≤ 604

/-! ## Sample inputs -/

/-- A document as it could be served: empty viewport, indicator visible. -/
def sampleDocument : Document :=
  { svgContainer := .initial
    currentPageSpan := "1"
    totalPagesSpan := ""
    pageInput := ""
    prevBtnDisabled := false
    nextBtnDisabled := false
    loadingHidden := false
    overlayShown := false }

/-- The viewer idle on page 1: started on `sampleDocument`, with the first load
settled successfully. -/
def idleOnFirstPage : Viewer :=
  run (startup sampleDocument)
    [.fetchSettled 0 (.response true), .textSettled 0 (.text "<svg></svg>" true)]

/-! ## The guard of `loadPage` -/

/-- C2: whenever the guard of `loadPage` fails (`n < 1`, `n > totalPages`, or
`loading` is set), the call returns the viewer unchanged: every field and DOM
property is as before, no fetch is started and no activation is suspended. -/
theorem loadPage_guard_noop (s : Viewer) (n : Int)
    (h : n < 1 ∨ n > s.totalPages ∨ s.loading = true) :
    loadPage s n = s ∧ (loadPage s n).fetched = s.fetched ∧
      (loadPage s n).pending = s.pending := by
  have h0 : loadPage s n = s := by
    unfold loadPage
    rw [if_pos h]
  rw [h0]
  exact ⟨rfl, rfl, rfl⟩

/-- C2, at concrete inputs: page 700 on the idle viewer, and page 7 while the
first load is in flight. -/
theorem loadPage_guard_noop_witness :
    ((700 : Int) < 1 ∨ (700 : Int) > idleOnFirstPage.totalPages ∨
        idleOnFirstPage.loading = true) ∧
      (loadPage idleOnFirstPage 700 = idleOnFirstPage ∧
        (loadPage idleOnFirstPage 700).fetched = idleOnFirstPage.fetched ∧
        (loadPage idleOnFirstPage 700).pending = idleOnFirstPage.pending) ∧
      (startup sampleDocument).loading = true ∧
      loadPage (startup sampleDocument) 7 = startup sampleDocument :=
  ⟨by decide, loadPage_guard_noop idleOnFirstPage 700 (by decide), by decide,
    (loadPage_guard_noop (startup sampleDocument) 7 (by decide)).1⟩

/-! ## Previous and next -/

/-- C10: `goToPreviousPage` is `requestPage(currentPage - 1)` and `goToNextPage`
is `requestPage(currentPage + 1)` on every viewer; on page 1 the former, and on
page `totalPages` the latter, returns the viewer unchanged, so no fetch starts. -/
theorem goToPrevious_goToNext_refine (s : Viewer) :
    goToPreviousPage s = requestPreviousSpec s ∧
      goToNextPage s = requestNextSpec s ∧
      goToPreviousPage { s with currentPage := 1 } = { s with currentPage := 1 } ∧
      goToNextPage { s with currentPage := s.totalPages } =
        { s with currentPage := s.totalPages } := by
  refine ⟨?_, ?_, ?_, ?_⟩
  · unfold goToPreviousPage requestPreviousSpec
    split
    · rfl
    · rename_i h
      have hg : s.currentPage - 1 < 1 ∨ s.currentPage - 1 > s.totalPages ∨
          s.loading = true := Or.inl (by omega)
      unfold loadPage
      rw [if_pos hg]
  · unfold goToNextPage requestNextSpec
    split
    · rfl
    · rename_i h
      have hg : s.currentPage + 1 < 1 ∨ s.currentPage + 1 > s.totalPages ∨
          s.loading = true := Or.inr (Or.inl (by omega))
      unfold loadPage
      rw [if_pos hg]
  · simp [goToPreviousPage]
  · simp [goToNextPage]

/-! ## Direct entry -/

/-- C4: when the text of the input field does not parse to an integer of
`[1, totalPages]`, `goToPage` starts no fetch and suspends nothing, leaves
`currentPage` and `loading` as they were, raises the range alert, and writes the
current page number into the input field. -/
theorem goToPage_out_of_range (s : Viewer) (raw : String)
    (h : ∀ k, parseInt raw = some k → k < 1 ∨ k > s.totalPages) :
    (requestPageFromInput s raw).fetched = s.fetched ∧
      (requestPageFromInput s raw).pending = s.pending ∧
      (requestPageFromInput s raw).currentPage = s.currentPage ∧
      (requestPageFromInput s raw).loading = s.loading ∧
      (requestPageFromInput s raw).alerts = s.alerts ++ [Alert.range s.totalPages] ∧
      (requestPageFromInput s raw).pageInput = numberToString s.currentPage := by
  unfold requestPageFromInput goToPage
  cases hp : parseInt raw with
  | none => simp [hp]
  | some k =>
    have hk := h k hp
    have hno : ¬ (k ≥ 1 ∧ k ≤ s.totalPages) := by omega
    simp only [hp]
    rw [if_neg hno]
    simp

/-- C4, the example of the specification: 604 pages, page 1 shown, `700` typed. -/
theorem goToPage_out_of_range_witness :
    idleOnFirstPage.totalPages = 604 ∧ idleOnFirstPage.currentPage = 1 ∧
      parseInt "700" = some 700 ∧
      (requestPageFromInput idleOnFirstPage "700").fetched = idleOnFirstPage.fetched ∧
      (requestPageFromInput idleOnFirstPage "700").pending = idleOnFirstPage.pending ∧
      (requestPageFromInput idleOnFirstPage "700").currentPage = 1 ∧
      (requestPageFromInput idleOnFirstPage "700").loading = false ∧
      (requestPageFromInput idleOnFirstPage "700").alerts = [Alert.range 604] ∧
      (requestPageFromInput idleOnFirstPage "700").pageInput = "1" :=
  ⟨by decide, by decide, by decide,
    goToPage_out_of_range idleOnFirstPage "700" (by decide)⟩

/-! ## Events while a load is in flight -/

/-- While `loading` is set, a call made for the user changes neither the three
fields, nor the viewport, nor what is fetched or suspended. -/
theorem step_user_of_loading (s : Viewer) (e : Event) (hu : e.isUser = true)
    (hl : s.loading = true) :
    (step s e).loading = true ∧ (step s e).pending = s.pending ∧
      (step s e).totalPages = s.totalPages ∧ (step s e).currentPage = s.currentPage ∧
      (step s e).svgContainer = s.svgContainer ∧ (step s e).fetched = s.fetched := by
  cases e with
  | fetchSettled i r => simp [Event.isUser] at hu
  | textSettled i r => simp [Event.isUser] at hu
  | loadPage n => simp [step, loadPage, hl]
  | goToPreviousPage => simp only [step, goToPreviousPage, loadPage, hl]; split <;> simp [hl]
  | goToNextPage => simp only [step, goToNextPage, loadPage, hl]; split <;> simp [hl]
  | typeInput raw => simp [step, hl]
  | goToPage =>
    simp only [step, goToPage, loadPage, hl]
    split
    · split <;> simp [hl]
    · simp [hl]
  | requestPageFromInput raw =>
    simp only [step, requestPageFromInput, goToPage, loadPage, hl]
    split
    · split <;> simp [hl]
    · simp [hl]
  | showPageInput => simp [step, showPageInput, hl]
  | hidePageInput => simp [step, hidePageInput, hl]
  | touchStart x => simp [step, onTouchStart, hl]
  | touchEnd x => simp [step, onTouchEnd, handleSwipe, handleSwipeScope, hl]

/-- The same for a sequence of such calls. -/
theorem run_user_of_loading (events : List Event) (s : Viewer)
    (hu : ∀ e ∈ events, e.isUser = true) (hl : s.loading = true) :
    (run s events).loading = true ∧ (run s events).pending = s.pending ∧
      (run s events).totalPages = s.totalPages ∧
      (run s events).currentPage = s.currentPage ∧
      (run s events).svgContainer = s.svgContainer ∧
      (run s events).fetched = s.fetched := by
  induction events generalizing s with
  | nil => exact ⟨hl, rfl, rfl, rfl, rfl, rfl⟩
  | cons e rest ih =>
    obtain ⟨a1, a2, a3, a4, a5, a6⟩ :=
      step_user_of_loading s e (hu e (List.mem_cons_self e rest)) hl
    obtain ⟨b1, b2, b3, b4, b5, b6⟩ :=
      ih (step s e) (fun x hx => hu x (List.mem_cons_of_mem e hx)) a1
    have hrun : run s (e :: rest) = run (step s e) rest := rfl
    rw [hrun]
    exact ⟨b1, b2.trans a2, b3.trans a3, b4.trans a4, b5.trans a5, b6.trans a6⟩

/-! ## A successful load -/

/-- Erasing the last element of a list by its index. -/
theorem eraseIdx_concat_length {α : Type} (l : List α) (a : α) :
    (l ++ [a]).eraseIdx l.length = l := by
  rw [List.eraseIdx_append_of_length_le (le_refl _)]
  simp

/-- What a call of `loadPage` that passes the guard leaves behind. -/
theorem loadPage_start (s : Viewer) (n : Int) (hidle : s.loading = false)
    (h1 : 1 ≤ n) (h2 : n ≤ s.totalPages) :
    loadPage s n =
      { s with
        loading := true
        loadingHidden := false
        fetched := s.fetched ++ [svgPath n]
        pending := s.pending ++ [Suspended.awaitingFetch n] } := by
  have hg : ¬ (n < 1 ∨ n > s.totalPages ∨ s.loading = true) := by
    rw [hidle]
    simp
    omega
  unfold loadPage
  rw [if_neg hg]
  rfl

/-- C3: from a viewer that is not loading, `loadPage n` with `n` in
`[1, totalPages]` whose fetch resolves with an ok response and whose body
resolves with `svgText` ends, whatever calls the user makes meanwhile, with
`currentPage = n`, `loading` cleared, the viewport holding `svgText`, the page
display and the input field showing `n`, the previous button disabled exactly
when `n = 1`, the next button disabled exactly when `n = totalPages`, the
loading indicator hidden and the activation gone. -/
theorem loadPage_success (s : Viewer) (n : Int) (svgText : String) (hasSvg : Bool)
    (before between : List Event)
    (hidle : s.loading = false) (h1 : 1 ≤ n) (h2 : n ≤ s.totalPages)
    (hb : ∀ e ∈ before, e.isUser = true) (hm : ∀ e ∈ between, e.isUser = true) :
    let i := s.pending.length
    let s1 := run (loadPage s n) before
    let s2 := run (settleFetch s1 i (.response true)) between
    let s3 := settleText s2 i (.text svgText hasSvg)
    s3.currentPage = n ∧ s3.loading = false ∧
      s3.svgContainer = Viewport.svg svgText hasSvg ∧
      s3.currentPageSpan = numberToString n ∧ s3.pageInput = numberToString n ∧
      (s3.prevBtnDisabled = true ↔ n = 1) ∧
      (s3.nextBtnDisabled = true ↔ n = s.totalPages) ∧
      s3.loadingHidden = true ∧ s3.pending = s.pending ∧
      s3.fetched = s.fetched ++ [svgPath n] := by
  intro i s1 s2 s3
  have hstart := loadPage_start s n hidle h1 h2
  have hl0 : (loadPage s n).loading = true := by rw [hstart]
  obtain ⟨a1, a2, a3, _, _, a6⟩ := run_user_of_loading before (loadPage s n) hb hl0
  have hp1 : s1.pending = s.pending ++ [Suspended.awaitingFetch n] := by
    rw [show s1.pending = (loadPage s n).pending from a2, hstart]
  have ht1 : s1.totalPages = s.totalPages := by
    rw [show s1.totalPages = (loadPage s n).totalPages from a3, hstart]
  have hf1 : s1.fetched = s.fetched ++ [svgPath n] := by
    rw [show s1.fetched = (loadPage s n).fetched from a6, hstart]
  have hget1 : s1.pending[i]? = some (Suspended.awaitingFetch n) := by
    rw [hp1]
    simp [i]
  have hsettle : settleFetch s1 i (.response true) =
      { s1 with pending := s.pending ++ [Suspended.awaitingText n] } := by
    unfold settleFetch
    simp only [hget1, loadSvgPageAfterFetch]
    rw [hp1]
    simp [i]
  have hl2 : (settleFetch s1 i (.response true)).loading = true := by
    rw [hsettle]
    exact a1
  obtain ⟨b1, b2, b3, _, _, b6⟩ :=
    run_user_of_loading between (settleFetch s1 i (.response true)) hm hl2
  have hp2 : s2.pending = s.pending ++ [Suspended.awaitingText n] := by
    rw [show s2.pending = (settleFetch s1 i (.response true)).pending from b2, hsettle]
  have ht2 : s2.totalPages = s.totalPages := by
    rw [show s2.totalPages = (settleFetch s1 i (.response true)).totalPages from b3,
      hsettle]
    exact ht1
  have hf2 : s2.fetched = s.fetched ++ [svgPath n] := by
    rw [show s2.fetched = (settleFetch s1 i (.response true)).fetched from b6, hsettle]
    exact hf1
  have hget2 : s2.pending[i]? = some (Suspended.awaitingText n) := by
    rw [hp2]
    simp [i]
  have hfinal : s3 =
      { s2 with
        pending := s.pending
        svgContainer := Viewport.svg svgText hasSvg
        currentPage := n
        currentPageSpan := numberToString n
        pageInput := numberToString n
        prevBtnDisabled := decide (n ≤ 1)
        nextBtnDisabled := decide (n ≥ s2.totalPages)
        loadingHidden := true
        loading := false } := by
    show settleText s2 i (.text svgText hasSvg) = _
    unfold settleText
    simp only [hget2, loadSvgPageAfterText, loadPageAfterSvg, updateUI, hideLoading]
    rw [hp2]
    simp [i, eraseIdx_concat_length]
  rw [hfinal]
  refine ⟨rfl, rfl, rfl, rfl, rfl, ?_, ?_, rfl, rfl, hf2⟩
  · simp only [decide_eq_true_eq]
    omega
  · simp only [decide_eq_true_eq, ht2]
    omega

/-- C3, at a concrete input: page 5 from the idle viewer, the user pressing the
next key while the fetch is in flight and typing while the body is read. -/
theorem loadPage_success_witness :
    idleOnFirstPage.loading = false ∧ (1 : Int) ≤ 5 ∧ (5 : Int) ≤ idleOnFirstPage.totalPages ∧
      (let i := idleOnFirstPage.pending.length
       let s1 := run (loadPage idleOnFirstPage 5) [Event.goToNextPage]
       let s2 := run (settleFetch s1 i (.response true)) [Event.typeInput "12"]
       let s3 := settleText s2 i (.text "<svg>5</svg>" true)
       s3.currentPage = 5 ∧ s3.loading = false ∧
        s3.svgContainer = Viewport.svg "<svg>5</svg>" true ∧
        s3.currentPageSpan = numberToString 5 ∧ s3.pageInput = numberToString 5 ∧
        (s3.prevBtnDisabled = true ↔ (5 : Int) = 1) ∧
        (s3.nextBtnDisabled = true ↔ (5 : Int) = idleOnFirstPage.totalPages) ∧
        s3.loadingHidden = true ∧ s3.pending = idleOnFirstPage.pending ∧
        s3.fetched = idleOnFirstPage.fetched ++ [svgPath 5]) :=
  ⟨by decide, by decide, by decide,
    loadPage_success idleOnFirstPage 5 "<svg>5</svg>" true
      [Event.goToNextPage] [Event.typeInput "12"] (by decide) (by decide) (by decide)
      (by decide) (by decide)⟩

/-! ## A failed load -/

/-- From a viewer that is not loading, `loadPage n` with `n` in
`[1, totalPages]` whose fetch rejects or resolves with a response that is not
ok: `loadSvgPage` catches the error itself, so `loadPage` goes on as after a
success: `currentPage` becomes `n` and no alert is raised. -/
theorem loadPage_fetch_failure (s : Viewer) (n : Int) (r : FetchResult)
    (hidle : s.loading = false) (h1 : 1 ≤ n) (h2 : n ≤ s.totalPages)
    (hr : r ≠ FetchResult.response true) :
    settleFetch (loadPage s n) s.pending.length r =
      { s with
        currentPage := n
        svgContainer := Viewport.errorPlaceholder n
        currentPageSpan := numberToString n
        pageInput := numberToString n
        prevBtnDisabled := decide (n ≤ 1)
        nextBtnDisabled := decide (n ≥ s.totalPages)
        loadingHidden := true
        fetched := s.fetched ++ [svgPath n] } := by
  rw [loadPage_start s n hidle h1 h2]
  unfold settleFetch
  have hget : (s.pending ++ [Suspended.awaitingFetch n])[s.pending.length]? =
      some (Suspended.awaitingFetch n) := by simp
  simp only [hget]
  cases r with
  | rejected =>
    simp [loadSvgPageAfterFetch, loadSvgPageCatch, loadPageAfterSvg, updateUI, hideLoading,
      eraseIdx_concat_length, hidle]
  | response ok =>
    cases ok with
    | true => exact absurd rfl hr
    | false =>
      simp [loadSvgPageAfterFetch, loadSvgPageCatch, loadPageAfterSvg, updateUI,
        hideLoading, eraseIdx_concat_length, hidle]

/-- C1, the code at the failing input: the viewer is idle on page 1, `loadPage(5)`
is called and the fetch fails (rejected, not ok, or body unreadable).  When the
load has settled `currentPage` is 5, not 1, the page display shows 5 and the
viewport holds the error placeholder of page 5. -/
theorem failed_load_moves_currentPage :
    idleOnFirstPage.currentPage = 1 ∧ idleOnFirstPage.loading = false ∧
      (run idleOnFirstPage [.loadPage 5, .fetchSettled 0 .rejected]).currentPage = 5 ∧
      (run idleOnFirstPage [.loadPage 5, .fetchSettled 0 (.response false)]).currentPage = 5 ∧
      (run idleOnFirstPage
        [.loadPage 5, .fetchSettled 0 (.response true), .textSettled 0 .rejected]).currentPage
          = 5 ∧
      (run idleOnFirstPage [.loadPage 5, .fetchSettled 0 .rejected]).svgContainer =
        Viewport.errorPlaceholder 5 ∧
      (run idleOnFirstPage [.loadPage 5, .fetchSettled 0 .rejected]).currentPageSpan = "5" ∧
      (run idleOnFirstPage [.loadPage 5, .fetchSettled 0 .rejected]).loading = false ∧
      (run idleOnFirstPage [.loadPage 5, .fetchSettled 0 .rejected]).pending = [] := by
  decide

/-- C5, the code at the failing input: the viewer is idle on page 1 with no
alert raised so far, `loadPage(5)` is called and the fetch fails (rejected, not
ok, or body unreadable).  When the load has settled, `loading` is cleared, the
viewport holds the error placeholder, and still no alert has been raised. -/
theorem failed_load_raises_no_alert :
    idleOnFirstPage.alerts = [] ∧
      (run idleOnFirstPage [.loadPage 5, .fetchSettled 0 .rejected]).alerts = [] ∧
      (run idleOnFirstPage [.loadPage 5, .fetchSettled 0 (.response false)]).alerts = [] ∧
      (run idleOnFirstPage
        [.loadPage 5, .fetchSettled 0 (.response true), .textSettled 0 .rejected]).alerts
          = [] ∧
      (run idleOnFirstPage [.loadPage 5, .fetchSettled 0 (.response false)]).loading = false ∧
      (run idleOnFirstPage [.loadPage 5, .fetchSettled 0 (.response false)]).pending = [] ∧
      (run idleOnFirstPage [.loadPage 5, .fetchSettled 0 (.response false)]).svgContainer =
        Viewport.errorPlaceholder 5 := by
  decide

/-! ## Swipes -/

/-- Were `touchStartX` and `touchEndX` bound where `handleSwipe` reads them, the
method would call `goToNextPage` once for a displacement above 50,
`goToPreviousPage` once for one below -50, and nothing in between. -/
theorem handleSwipe_of_bound (s : Viewer) (startX endX : Int) :
    handleSwipe { touchStartX := some startX, touchEndX := some endX } s =
      if startX - endX > 50 then .ok (goToNextPage s)
      else if startX - endX < -50 then .ok (goToPreviousPage s)
      else .ok s := by
  unfold handleSwipe
  simp only
  by_cases h1 : startX - endX > 50
  · have ha : |startX - endX| > 50 := lt_of_lt_of_le h1 (le_abs_self _)
    have hp : startX - endX > 0 := by omega
    rw [if_pos ha, if_pos hp, if_pos h1]
  · by_cases h2 : startX - endX < -50
    · have ha : |startX - endX| > 50 := by
        have := neg_le_abs (startX - endX)
        omega
      have hp : ¬ startX - endX > 0 := by omega
      rw [if_pos ha, if_neg hp, if_neg h1, if_pos h2]
    · have ha : ¬ |startX - endX| > 50 := by
        have : |startX - endX| ≤ 50 := abs_le.mpr ⟨by omega, by omega⟩
        omega
      rw [if_neg ha, if_neg h1, if_neg h2]

/-- Every swipe ends in a `ReferenceError` for `touchStartX`, with nothing
changed but the two variables of the listeners. -/
theorem swipe_referenceError (s : Viewer) (startX endX : Int) :
    swipe s startX endX =
      ({ s with localTouchStartX := startX, localTouchEndX := endX },
        some (JsError.referenceError "touchStartX")) := by
  rfl

/-- C6, the code at the failing input: on the idle viewer showing page 1 of 604,
a touch from x = 200 to x = 100 (displacement 100 > 50) makes `handleSwipe`
throw a `ReferenceError` for `touchStartX`; the viewer is not what
`goToNextPage` would leave, no fetch is started and `loading` stays cleared. -/
theorem swipe_starts_no_navigation :
    swipe idleOnFirstPage 200 100 =
        ({ idleOnFirstPage with localTouchStartX := 200, localTouchEndX := 100 },
          some (JsError.referenceError "touchStartX")) ∧
      (swipe idleOnFirstPage 200 100).1 ≠
        goToNextPage { idleOnFirstPage with localTouchStartX := 200, localTouchEndX := 100 } ∧
      (swipe idleOnFirstPage 200 100).1.fetched = idleOnFirstPage.fetched ∧
      (swipe idleOnFirstPage 200 100).1.pending = [] ∧
      (swipe idleOnFirstPage 200 100).1.loading = false ∧
      (swipe idleOnFirstPage 100 200).2 = some (JsError.referenceError "touchStartX") ∧
      (swipe idleOnFirstPage 100 200).1.pending = [] := by
  decide

/-! ## Serialisation of loads -/

/-- The property `Serialized` reads only `loading` and `pending`. -/
theorem serialized_congr {s s1 : Viewer} (h : Serialized s)
    (hl : s1.loading = s.loading) (hp : s1.pending = s.pending) : Serialized s1 := by
  unfold Serialized at *
  rw [hl, hp]
  exact h

/-- The method `loadPage` keeps loads serialised. -/
theorem serialized_loadPage {s : Viewer} (h : Serialized s) (n : Int) :
    Serialized (loadPage s n) := by
  unfold QuranViewer.loadPage
  split
  · exact h
  · rename_i hg
    have hl : s.loading = false := by
      cases hs : s.loading with
      | false => rfl
      | true => exact absurd (Or.inr (Or.inr hs)) hg
    obtain ⟨h1, h2⟩ := h
    have h0 : s.pending.length = 0 := by
      have hne : ¬ s.pending.length = 1 := fun hc => by
        have := h2.mpr hc
        rw [hl] at this
        cases this
      omega
    unfold Serialized showLoading loadSvgPage
    simp [h0]

/-- The method `goToPage` keeps loads serialised. -/
theorem serialized_goToPage {s : Viewer} (h : Serialized s) : Serialized (goToPage s) := by
  unfold QuranViewer.goToPage
  split
  · split
    · exact serialized_loadPage h _
    · exact serialized_congr h rfl rfl
  · exact serialized_congr h rfl rfl

/-- The settlement of a fetch keeps loads serialised. -/
theorem serialized_settleFetch {s : Viewer} (h : Serialized s) (i : Nat) (r : FetchResult) :
    Serialized (settleFetch s i r) := by
  unfold QuranViewer.settleFetch
  split
  · rename_i n hget
    obtain ⟨hi, _⟩ := List.getElem?_eq_some.mp hget
    obtain ⟨h1, h2⟩ := h
    have hlen : (s.pending.eraseIdx i).length = 0 := by
      rw [List.length_eraseIdx, if_pos hi]
      omega
    cases r with
    | rejected =>
      simp only [loadSvgPageAfterFetch, loadSvgPageCatch]
      unfold Serialized
      simp [loadPageAfterSvg, updateUI, hideLoading, hlen]
    | response ok =>
      cases ok with
      | false =>
        simp only [loadSvgPageAfterFetch, loadSvgPageCatch]
        unfold Serialized
        simp [loadPageAfterSvg, updateUI, hideLoading, hlen]
      | true =>
        simp only [loadSvgPageAfterFetch]
        unfold Serialized
        simp only [List.length_set]
        exact ⟨h1, h2⟩
  · exact h

/-- The settlement of a body keeps loads serialised. -/
theorem serialized_settleText {s : Viewer} (h : Serialized s) (i : Nat) (r : TextResult) :
    Serialized (settleText s i r) := by
  unfold QuranViewer.settleText
  split
  · rename_i n hget
    obtain ⟨hi, _⟩ := List.getElem?_eq_some.mp hget
    obtain ⟨h1, h2⟩ := h
    have hlen : (s.pending.eraseIdx i).length = 0 := by
      rw [List.length_eraseIdx, if_pos hi]
      omega
    cases r with
    | rejected =>
      unfold Serialized
      simp [loadSvgPageAfterText, loadSvgPageCatch, loadPageAfterSvg, updateUI, hideLoading,
        hlen]
    | text svgText hasSvg =>
      unfold Serialized
      simp [loadSvgPageAfterText, loadPageAfterSvg, updateUI, hideLoading, hlen]
  · exact h

/-- Every event keeps loads serialised. -/
theorem serialized_step {s : Viewer} (h : Serialized s) (e : Event) :
    Serialized (step s e) := by
  cases e with
  | loadPage n => exact serialized_loadPage h n
  | goToPreviousPage =>
    show Serialized (goToPreviousPage s)
    unfold QuranViewer.goToPreviousPage
    split
    · exact serialized_loadPage h _
    · exact h
  | goToNextPage =>
    show Serialized (goToNextPage s)
    unfold QuranViewer.goToNextPage
    split
    · exact serialized_loadPage h _
    · exact h
  | typeInput raw => exact serialized_congr h rfl rfl
  | goToPage => exact serialized_goToPage h
  | requestPageFromInput raw =>
    exact serialized_goToPage (s := { s with pageInput := raw }) (serialized_congr h rfl rfl)
  | showPageInput => exact serialized_congr h rfl rfl
  | hidePageInput => exact serialized_congr h rfl rfl
  | touchStart x => exact serialized_congr h rfl rfl
  | touchEnd x => exact serialized_congr h rfl rfl
  | fetchSettled i r => exact serialized_settleFetch h i r
  | textSettled i r => exact serialized_settleText h i r

/-- Every sequence of events keeps loads serialised. -/
theorem serialized_run (events : List Event) {s : Viewer} (h : Serialized s) :
    Serialized (run s events) := by
  induction events generalizing s with
  | nil => exact h
  | cons e rest ih => exact ih (serialized_step h e)

/-- The viewer is serialised when constructed. -/
theorem serialized_construct (d : Document) : Serialized (construct d) := by
  unfold Serialized QuranViewer.construct
  simp

/-- The viewer is serialised once `init` has run. -/
theorem serialized_startup (d : Document) : Serialized (startup d) := by
  have h : Serialized (setupEventListeners (setupElements (QuranViewer.construct d))) :=
    serialized_congr (serialized_construct d) rfl rfl
  exact serialized_loadPage h _

/-- A list of at most one element that has an element at index `i` is that
element alone, and `i` is 0. -/
theorem eq_singleton_of_getElem? {α : Type} {l : List α} {i : Nat} {a : α}
    (h : l.length ≤ 1) (hget : l[i]? = some a) : i = 0 ∧ l = [a] := by
  match l, h, hget with
  | [], _, hget => simp at hget
  | [x], _, hget =>
    cases i with
    | zero =>
      simp at hget
      exact ⟨rfl, by rw [hget]⟩
    | succ k => simp at hget
  | x :: y :: rest, h, _ =>
    simp at h

/-- While loads are serialised and `loading` is set, exactly one activation is
suspended, so a settlement is enabled at index 0. -/
theorem pending_of_loading {s : Viewer} (h : Serialized s) (hl : s.loading = true) :
    ∃ n, s.pending = [Suspended.awaitingFetch n] ∨ s.pending = [Suspended.awaitingText n] := by
  have hone : s.pending.length = 1 := h.2.mp hl
  match hp : s.pending, hone with
  | [Suspended.awaitingFetch n], _ => exact ⟨n, Or.inl rfl⟩
  | [Suspended.awaitingText n], _ => exact ⟨n, Or.inr rfl⟩

/-- The settlement of the fetch the `i`-th activation awaits, while loads are
serialised: a response that is ok leaves the same load in flight, now awaiting
its body with `loading` still set; a rejection or a response that is not ok
ends the load, with `loading` cleared and nothing in flight. -/
theorem settleFetch_enabled {s : Viewer} (h : Serialized s) (i : Nat) (n : Int)
    (r : FetchResult) (hget : s.pending[i]? = some (Suspended.awaitingFetch n)) :
    (r = FetchResult.response true →
        (settleFetch s i r).loading = true ∧
          (settleFetch s i r).pending = [Suspended.awaitingText n]) ∧
      (r ≠ FetchResult.response true →
        (settleFetch s i r).loading = false ∧ (settleFetch s i r).pending = []) := by
  obtain ⟨hi, hp⟩ := eq_singleton_of_getElem? h.1 hget
  subst hi
  have hl : s.loading = true := h.2.mpr (by rw [hp]; rfl)
  unfold QuranViewer.settleFetch
  simp only [hget]
  cases r with
  | rejected =>
    refine ⟨fun hr => FetchResult.noConfusion hr, fun _ => ?_⟩
    simp [loadSvgPageAfterFetch, loadSvgPageCatch, loadPageAfterSvg, updateUI, hideLoading, hp]
  | response ok =>
    cases ok with
    | false =>
      refine ⟨fun hr => absurd (FetchResult.response.inj hr) (by decide), fun _ => ?_⟩
      simp [loadSvgPageAfterFetch, loadSvgPageCatch, loadPageAfterSvg, updateUI, hideLoading,
        hp]
    | true =>
      refine ⟨fun _ => ?_, fun hr => absurd rfl hr⟩
      simp [loadSvgPageAfterFetch, hp, hl]

/-- The settlement of the body the `i`-th activation awaits, while loads are
serialised: whether the body is read or not, the load ends with `loading`
cleared and nothing in flight. -/
theorem settleText_enabled {s : Viewer} (h : Serialized s) (i : Nat) (n : Int)
    (r : TextResult) (hget : s.pending[i]? = some (Suspended.awaitingText n)) :
    (settleText s i r).loading = false ∧ (settleText s i r).pending = [] := by
  obtain ⟨hi, hp⟩ := eq_singleton_of_getElem? h.1 hget
  subst hi
  unfold QuranViewer.settleText
  simp only [hget]
  cases r with
  | rejected =>
    simp [loadSvgPageAfterText, loadSvgPageCatch, loadPageAfterSvg, updateUI, hideLoading, hp]
  | text svgText hasSvg =>
    simp [loadSvgPageAfterText, loadPageAfterSvg, updateUI, hideLoading, hp]

/-- C7: in every state reached from `new QuranViewer()` (and from the bare
constructor fields) by any sequence of navigation calls, input edits, touches
and promise settlements, at most one `loadPage` activation is suspended on its
fetch, and `loading` is set exactly when one is.  Whenever `loading` is set
there is exactly that one activation to settle.  When the fetch it awaits
settles with an ok response the same load stays in flight with `loading` set,
awaiting its body; when the fetch rejects or the response is not ok, and when
the body settles either way, the load is over: `loading` is cleared and nothing
is in flight.  A settlement addressed to an activation that does not exist or
awaits something else changes nothing. -/
theorem loads_serialized (d : Document) (events : List Event) :
    ((run (startup d) events).pending.length ≤ 1 ∧
        ((run (startup d) events).loading = true ↔
          (run (startup d) events).pending.length = 1)) ∧
      ((run (construct d) events).pending.length ≤ 1 ∧
        ((run (construct d) events).loading = true ↔
          (run (construct d) events).pending.length = 1)) ∧
      ((run (startup d) events).loading = true →
        ∃ n, (run (startup d) events).pending = [Suspended.awaitingFetch n] ∨
          (run (startup d) events).pending = [Suspended.awaitingText n]) ∧
      (∀ (i : Nat) (n : Int) (r : FetchResult),
        (run (startup d) events).pending[i]? = some (Suspended.awaitingFetch n) →
          (r = FetchResult.response true →
            (settleFetch (run (startup d) events) i r).loading = true ∧
              (settleFetch (run (startup d) events) i r).pending =
                [Suspended.awaitingText n]) ∧
          (r ≠ FetchResult.response true →
            (settleFetch (run (startup d) events) i r).loading = false ∧
              (settleFetch (run (startup d) events) i r).pending = [])) ∧
      (∀ (i : Nat) (n : Int) (r : TextResult),
        (run (startup d) events).pending[i]? = some (Suspended.awaitingText n) →
          (settleText (run (startup d) events) i r).loading = false ∧
            (settleText (run (startup d) events) i r).pending = []) ∧
      (∀ (i : Nat) (r : FetchResult),
        (∀ n, (run (startup d) events).pending[i]? ≠ some (Suspended.awaitingFetch n)) →
          settleFetch (run (startup d) events) i r = run (startup d) events) ∧
      (∀ (i : Nat) (r : TextResult),
        (∀ n, (run (startup d) events).pending[i]? ≠ some (Suspended.awaitingText n)) →
          settleText (run (startup d) events) i r = run (startup d) events) := by
  have hs := serialized_run events (serialized_startup d)
  refine ⟨hs, serialized_run events (serialized_construct d), pending_of_loading hs,
    fun i n r hget => settleFetch_enabled hs i n r hget,
    fun i n r hget => settleText_enabled hs i n r hget, ?_, ?_⟩
  · intro i r hno
    unfold settleFetch
    split
    · rename_i n hget
      exact absurd hget (hno n)
    · rfl
  · intro i r hno
    unfold settleText
    split
    · rename_i n hget
      exact absurd hget (hno n)
    · rfl

/-- C7, at concrete inputs: right after `new QuranViewer()` the fetch of page 1
is the one load in flight and `loading` is set; a rejection, or a response that
is not ok, clears `loading` and leaves nothing in flight; an ok response keeps
the load in flight, and the settlement of its body, read or not, then clears
`loading` and leaves nothing in flight. -/
theorem loads_serialized_witness :
    (startup sampleDocument).loading = true ∧
      (startup sampleDocument).pending = [Suspended.awaitingFetch 1] ∧
      ((settleFetch (run (startup sampleDocument) []) 0 FetchResult.rejected).loading = false ∧
        (settleFetch (run (startup sampleDocument) []) 0 FetchResult.rejected).pending = []) ∧
      ((settleFetch (run (startup sampleDocument) []) 0 (FetchResult.response false)).loading
          = false ∧
        (settleFetch (run (startup sampleDocument) []) 0 (FetchResult.response false)).pending
          = []) ∧
      ((settleFetch (run (startup sampleDocument) []) 0 (FetchResult.response true)).loading
          = true ∧
        (settleFetch (run (startup sampleDocument) []) 0 (FetchResult.response true)).pending
          = [Suspended.awaitingText 1]) ∧
      ((settleText (run (startup sampleDocument) [Event.fetchSettled 0 (.response true)]) 0
          TextResult.rejected).loading = false ∧
        (settleText (run (startup sampleDocument) [Event.fetchSettled 0 (.response true)]) 0
          TextResult.rejected).pending = []) ∧
      ((settleText (run (startup sampleDocument) [Event.fetchSettled 0 (.response true)]) 0
          (TextResult.text "<svg></svg>" true)).loading = false ∧
        (settleText (run (startup sampleDocument) [Event.fetchSettled 0 (.response true)]) 0
          (TextResult.text "<svg></svg>" true)).pending = []) :=
  ⟨by decide, by decide,
    ((loads_serialized sampleDocument []).2.2.2.1 0 1 FetchResult.rejected
      (by decide)).2 (by decide),
    ((loads_serialized sampleDocument []).2.2.2.1 0 1 (FetchResult.response false)
      (by decide)).2 (by decide),
    ((loads_serialized sampleDocument []).2.2.2.1 0 1 (FetchResult.response true)
      (by decide)).1 rfl,
    (loads_serialized sampleDocument [Event.fetchSettled 0 (.response true)]).2.2.2.2.1 0 1
      TextResult.rejected (by decide),
    (loads_serialized sampleDocument [Event.fetchSettled 0 (.response true)]).2.2.2.2.1 0 1
      (TextResult.text "<svg></svg>" true) (by decide)⟩

/-! ## The range of `currentPage` -/

/-- The property `InRange` reads only the two page fields and `pending`. -/
theorem inRange_congr {s s1 : Viewer} (h : InRange s) (ht : s1.totalPages = s.totalPages)
    (hc : s1.currentPage = s.currentPage) (hp : s1.pending = s.pending) : InRange s1 := by
  unfold InRange at *
  rw [ht, hc, hp]
  exact h

/-- The method `loadPage` keeps the range. -/
theorem inRange_loadPage {s : Viewer} (h : InRange s) (n : Int) :
    InRange (loadPage s n) := by
  unfold QuranViewer.loadPage
  split
  · exact h
  · rename_i hg
    obtain ⟨h1, h2, h3, h4⟩ := h
    have hn : 1 ≤ n ∧ n ≤ 604 := by
      constructor
      · by_contra hc
        exact hg (Or.inl (by omega))
      · by_contra hc
        exact hg (Or.inr (Or.inl (by omega)))
    refine ⟨h1, h2, h3, ?_⟩
    intro t ht
    simp only [showLoading, loadSvgPage, List.mem_append, List.mem_singleton] at ht
    rcases ht with ht | ht
    · exact h4 t ht
    · rw [ht]
      exact hn

/-- The method `goToPage` keeps the range. -/
theorem inRange_goToPage {s : Viewer} (h : InRange s) : InRange (goToPage s) := by
  unfold QuranViewer.goToPage
  split
  · split
    · exact inRange_loadPage h _
    · exact inRange_congr h rfl rfl rfl
  · exact inRange_congr h rfl rfl rfl

/-- The end of `loadPage` keeps the range when the loaded page is in it. -/
theorem inRange_loadPageAfterSvg {s : Viewer} (h : InRange s) (n : Int)
    (hn : 1 ≤ n ∧ n ≤ 604) (r : Except JsError Viewer)
    (hr : ∀ s1, r = .ok s1 → s1.totalPages = s.totalPages ∧ s1.pending = s.pending) :
    InRange (loadPageAfterSvg s n r) := by
  obtain ⟨h1, h2, h3, h4⟩ := h
  cases r with
  | error e => exact ⟨h1, h2, h3, h4⟩
  | ok s1 =>
    obtain ⟨ht, hp⟩ := hr s1 rfl
    refine ⟨ht.trans h1, hn.1, hn.2, ?_⟩
    intro t hmem
    have hmem1 : t ∈ s1.pending := hmem
    rw [hp] at hmem1
    exact h4 t hmem1

/-- The settlement of a fetch keeps the range. -/
theorem inRange_settleFetch {s : Viewer} (h : InRange s) (i : Nat) (r : FetchResult) :
    InRange (settleFetch s i r) := by
  unfold QuranViewer.settleFetch
  split
  · rename_i n hget
    have hn : 1 ≤ n ∧ n ≤ 604 := h.2.2.2 _ (List.getElem?_mem hget)
    have herase : InRange { s with pending := s.pending.eraseIdx i } :=
      ⟨h.1, h.2.1, h.2.2.1, fun t ht => h.2.2.2 t (List.mem_of_mem_eraseIdx ht)⟩
    cases r with
    | rejected =>
      exact inRange_loadPageAfterSvg herase n hn _ (fun s1 hs1 => by
        simp only [loadSvgPageAfterFetch, loadSvgPageCatch, Except.ok.injEq] at hs1
        rw [← hs1]
        exact ⟨rfl, rfl⟩)
    | response ok =>
      cases ok with
      | false =>
        exact inRange_loadPageAfterSvg herase n hn _ (fun s1 hs1 => by
          simp only [loadSvgPageAfterFetch, loadSvgPageCatch, Except.ok.injEq] at hs1
          rw [← hs1]
          exact ⟨rfl, rfl⟩)
      | true =>
        refine ⟨h.1, h.2.1, h.2.2.1, ?_⟩
        intro t ht
        rcases List.mem_or_eq_of_mem_set ht with hm | he
        · exact h.2.2.2 t hm
        · rw [he]
          exact hn
  · exact h

/-- The settlement of a body keeps the range. -/
theorem inRange_settleText {s : Viewer} (h : InRange s) (i : Nat) (r : TextResult) :
    InRange (settleText s i r) := by
  unfold QuranViewer.settleText
  split
  · rename_i n hget
    have hn : 1 ≤ n ∧ n ≤ 604 := h.2.2.2 _ (List.getElem?_mem hget)
    have herase : InRange { s with pending := s.pending.eraseIdx i } :=
      ⟨h.1, h.2.1, h.2.2.1, fun t ht => h.2.2.2 t (List.mem_of_mem_eraseIdx ht)⟩
    refine inRange_loadPageAfterSvg herase n hn _ (fun s1 hs1 => ?_)
    cases r with
    | rejected =>
      simp only [loadSvgPageAfterText, loadSvgPageCatch, Except.ok.injEq] at hs1
      rw [← hs1]
      exact ⟨rfl, rfl⟩
    | text svgText hasSvg =>
      simp only [loadSvgPageAfterText, Except.ok.injEq] at hs1
      rw [← hs1]
      exact ⟨rfl, rfl⟩
  · exact h

/-- Every event keeps the range. -/
theorem inRange_step {s : Viewer} (h : InRange s) (e : Event) : InRange (step s e) := by
  cases e with
  | loadPage n => exact inRange_loadPage h n
  | goToPreviousPage =>
    show InRange (goToPreviousPage s)
    unfold QuranViewer.goToPreviousPage
    split
    · exact inRange_loadPage h _
    · exact h
  | goToNextPage =>
    show InRange (goToNextPage s)
    unfold QuranViewer.goToNextPage
    split
    · exact inRange_loadPage h _
    · exact h
  | typeInput raw => exact inRange_congr h rfl rfl rfl
  | goToPage => exact inRange_goToPage h
  | requestPageFromInput raw =>
    exact inRange_goToPage (s := { s with pageInput := raw }) (inRange_congr h rfl rfl rfl)
  | showPageInput => exact inRange_congr h rfl rfl rfl
  | hidePageInput => exact inRange_congr h rfl rfl rfl
  | touchStart x => exact inRange_congr h rfl rfl rfl
  | touchEnd x => exact inRange_congr h rfl rfl rfl
  | fetchSettled i r => exact inRange_settleFetch h i r
  | textSettled i r => exact inRange_settleText h i r

/-- Every sequence of events keeps the range. -/
theorem inRange_run (events : List Event) {s : Viewer} (h : InRange s) :
    InRange (run s events) := by
  induction events generalizing s with
  | nil => exact h
  | cons e rest ih => exact ih (inRange_step h e)

/-- The constructed viewer is in range. -/
theorem inRange_construct (d : Document) : InRange (construct d) := by
  unfold InRange QuranViewer.construct
  simp

/-- The viewer is in range once `init` has run. -/
theorem inRange_startup (d : Document) : InRange (startup d) := by
  have h : InRange (setupEventListeners (setupElements (QuranViewer.construct d))) :=
    inRange_congr (inRange_construct d) rfl rfl rfl
  exact inRange_loadPage h _

/-- C8: the constructor leaves `currentPage = 1`, `totalPages = 604` and
`loading` cleared, and after any sequence of events (`loadPage` with any
integer, previous, next, direct entry of any text, touches, settlements of
either outcome), from the constructor fields or from the viewer `init` has
started, `1 ≤ currentPage ≤ totalPages` and `totalPages` is still 604. -/
theorem currentPage_in_range (d : Document) (events : List Event) :
    (construct d).currentPage = 1 ∧ (construct d).totalPages = 604 ∧
      (construct d).loading = false ∧
      (1 ≤ (run (construct d) events).currentPage ∧
        (run (construct d) events).currentPage ≤ (run (construct d) events).totalPages ∧
        (run (construct d) events).totalPages = 604) ∧
      (1 ≤ (run (startup d) events).currentPage ∧
        (run (startup d) events).currentPage ≤ (run (startup d) events).totalPages ∧
        (run (startup d) events).totalPages = 604) := by
  have hc := inRange_run events (inRange_construct d)
  have hs := inRange_run events (inRange_startup d)
  refine ⟨rfl, rfl, rfl, ⟨hc.2.1, ?_, hc.1⟩, ⟨hs.2.1, ?_, hs.1⟩⟩
  · rw [hc.1]
    exact hc.2.2.1
  · rw [hs.1]
    exact hs.2.2.1

/-! ## The path of a page asset -/

/-- The first `loadPage` of a constructed viewer fetches the path of its page. -/
theorem loadPage_construct_fetched (d : Document) (n : Int) (h1 : 1 ≤ n) (h2 : n ≤ 604) :
    (loadPage (construct d) n).fetched = [svgPath n] := by
  rw [loadPage_start (construct d) n rfl h1 h2]
  rfl

set_option maxRecDepth 100000 in
/-- The padded page number of a page of `[1, 604]`: three decimal digits whose
value is the page number. -/
theorem padded_three_digits (n : Int) (h1 : 1 ≤ n) (h2 : n ≤ 604) :
    (padStart (numberToString n) 3 '0').data.length = 3 ∧
      (∀ c ∈ (padStart (numberToString n) 3 '0').data, c.isDigit = true) ∧
      (decimalValue (numberToString n).data : Int) = n ∧
      (decimalValue (padStart (numberToString n) 3 '0').data : Int) = n := by
  interval_cases n <;> decide

/-- C9: for every page `n` of `[1, 604]` the path `loadSvgPage` fetches is
`svg/`, then the decimal representation of `n` with `'0'` put in front up to
three characters, then `.svg`; the middle part has exactly three characters,
all decimal digits, and read as a decimal number it is `n`. -/
theorem svgPath_format (n : Int) (h1 : 1 ≤ n) (h2 : n ≤ 604) :
    ∃ pad : List Char,
      svgPath n = "svg/" ++ String.mk pad ++ ".svg" ∧
      pad = List.replicate (3 - (numberToString n).data.length) '0' ++
        (numberToString n).data ∧
      pad.length = 3 ∧ (∀ c ∈ pad, c.isDigit = true) ∧
      (decimalValue (numberToString n).data : Int) = n ∧
      (decimalValue pad : Int) = n ∧
      ∀ d : Document, (loadPage (construct d) n).fetched = [svgPath n] := by
  obtain ⟨p1, p2, p3, p4⟩ := padded_three_digits n h1 h2
  exact ⟨(padStart (numberToString n) 3 '0').data, rfl, rfl, p1, p2, p3, p4,
    fun d => loadPage_construct_fetched d n h1 h2⟩

/-- C9, the examples of the claim: page 5 gives `svg/005.svg` and page 604 gives
`svg/604.svg`. -/
theorem svgPath_format_witness :
    (1 : Int) ≤ 5 ∧ (5 : Int) ≤ 604 ∧
      svgPath 5 = "svg/005.svg" ∧ svgPath 604 = "svg/604.svg" ∧
      ∃ pad : List Char,
        svgPath 5 = "svg/" ++ String.mk pad ++ ".svg" ∧
        pad = List.replicate (3 - (numberToString 5).data.length) '0' ++
          (numberToString 5).data ∧
        pad.length = 3 ∧ (∀ c ∈ pad, c.isDigit = true) ∧
        (decimalValue (numberToString 5).data : Int) = 5 ∧
        (decimalValue pad : Int) = 5 ∧
        ∀ d : Document, (loadPage (construct d) 5).fetched = [svgPath 5] :=
  ⟨by decide, by decide, by decide, by decide, svgPath_format 5 (by decide) (by decide)⟩

end QuranViewer
